import Mathlib

/-!
# Verification of the recurring-task template engine

Shallow embedding of the permanent-task subsystem of the TodoList app:
the template / instance / stats storage layer
(`app/core/services/storage/permanentTaskStorage.ts` and `taskStorage.ts`),
the factory (`permanentTaskFactory.ts`), the business-logic layer
(`permanentTaskActions.ts`) and the universal router (`taskActions.ts`).

Modeling conventions:
* JavaScript timestamps (`Date.now()`, `getTime()`) are `Int` milliseconds.
  `Date` weekday / calendar arithmetic is modeled in UTC (the source runs in
  the device's local timezone; all claims below are timezone independent
  because every date involved keeps its time-of-day fixed under the
  arithmetic in question).
* The SQLite tables are lists of row structures.  `INSERT OR REPLACE`
  deletes rows with the same primary key and appends the new row, matching
  SQLite's `REPLACE` conflict resolution.  `SELECT ... WHERE k = ?` with
  `rows[0]` is `List.find?`.  Row order produced by `ORDER BY` clauses is
  not modeled; no claim depends on result ordering.
* JavaScript truthiness is modeled where the source relies on it
  (`x || y`, `if (x)`): `undefined`/`null` is `Option.none`, the empty
  string and the number 0 are falsy.
* Exceptions (`throw new Error(msg)`) are `Except String`.  Every `throw`
  in the embedded call paths occurs before any store write of the same
  action, except the auto-repeat spawn failure which the source catches;
  each action returns its post-state explicitly so partial effects are
  visible.
* Nondeterministic inputs (`Date.now()`, generated ids) are explicit
  parameters.
-/

namespace Todo

/-! ## Calendar helpers (JS `Date` arithmetic, UTC model) -/

/-- Day-of-week of a ms timestamp, as JS `Date#getDay`: 0 = Sunday … 6 =
Saturday.  Day 0 (1970-01-01) was a Thursday (4). -/
def jsGetDay (t : Int) : Int :=
  (Int.fdiv t 86400000 + 4).emod 7

/-- Civil (proleptic Gregorian) date to day number (days since 1970-01-01);
month is 1-based.  Used to model JS `Date` month/day normalization. -/
def daysFromCivil (y m d : Int) : Int :=
  let y := if m ≤ 2 then y - 1 else y
  let era := Int.fdiv y 400
  let yoe := y - era * 400
  let mp := Int.emod (m + 9) 12
  let doy := (153 * mp + 2) / 5 + d - 1
  let doe := yoe * 365 + yoe / 4 - yoe / 100 + doy
  era * 146097 + doe - 719468

/-- Day number (days since 1970-01-01) to civil date (year, month 1-based,
day). -/
def civilFromDays (z : Int) : Int × Int × Int :=
  let z := z + 719468
  let era := Int.fdiv z 146097
  let doe := z - era * 146097
  let yoe := (doe - doe / 1460 + doe / 36524 - doe / 146096) / 365
  let y := yoe + era * 400
  let doy := doe - (365 * yoe + yoe / 4 - yoe / 100)
  let mp := (5 * doy + 2) / 153
  let d := doy - (153 * mp + 2) / 5 + 1
  let m := if mp < 10 then mp + 3 else mp - 9
  (if m ≤ 2 then y + 1 else y, m, d)

/-- `new Date(base).setMonth(getMonth() + 1)` followed by an optional
`setDate(dom)`, returning `getTime()`: advance one calendar month with JS
overflow normalization (day overflow rolls into the following month), then
optionally set the day-of-month (again with JS overflow semantics).
Time-of-day is preserved. -/
def jsAddMonthSetDate (base : Int) (dom : Option Int) : Int :=
  let tod := Int.emod base 86400000
  let dn := Int.fdiv base 86400000
  let c := civilFromDays dn
  let y := c.1
  let m := c.2.1
  let d := c.2.2
  -- setMonth(m0 + 1) where m0 = m - 1 is the 0-based month: new 0-based
  -- month is m; normalize a month of 12 into January of the next year.
  let y1 := y + Int.fdiv m 12
  let m1 := Int.emod m 12 + 1
  let dn1 := daysFromCivil y1 m1 1 + (d - 1)
  let dn2 :=
    match dom with
    | some dd =>
        let c2 := civilFromDays dn1
        daysFromCivil c2.1 c2.2.1 1 + (dd - 1)
    | none => dn1
  dn2 * 86400000 + tod

/-! ## Data model (`types/permanentTask.ts`, `types/task.ts`) -/

/-- `autoRepeat` configuration as consumed by
`createNextRecurringInstance` (`{ interval, dayOfWeek, dayOfMonth }`).
It is persisted as a JSON string; JSON round-tripping is the identity on
these fields, so the structure is stored directly. -/
structure AutoRepeat where
  interval : String
  dayOfWeek : Option Int := none
  dayOfMonth : Option Int := none
deriving DecidableEq

/-- `PermanentTask` (template or instance), from
`features/permanentTask/types/permanentTask.ts`.  Optional TS fields are
`Option`.  `permanentId` is `String`; where the source reads a possibly
`undefined` metadata field into it, the model uses `""` (no claim depends
on that corner). -/
structure PermanentTask where
  id : String
  permanentId : String
  title : Option String := none
  templateTitle : String
  isTemplate : Bool
  createdAt : Int
  dueDate : Option Int := none
  location : Option String := none
  autoRepeat : Option AutoRepeat := none
  instanceCount : Option Nat := none
  completed : Option Bool := none
deriving DecidableEq

/-- Row of the `templates` table (`schema/permanentTask.ts`). -/
structure TemplateRow where
  permanentId : String
  templateTitle : String
  isTemplate : Bool
  instanceCount : Nat
  autoRepeat : Option AutoRepeat
  location : Option String
  createdAt : Int
deriving DecidableEq

/-- Row of the `template_instances` table.  The schema also declares a
`dueDate` column, but `savePermanentInstance` never writes it and the
readers never map it, so it is omitted. -/
structure InstanceRow where
  instanceId : String
  templateId : String
  createdAt : Int
deriving DecidableEq

/-- Row of the `template_stats` table. -/
structure StatsRow where
  templateId : String
  completionCount : Nat
  completionRate : ℚ
  currentStreak : Nat
  maxStreak : Nat
  completionMon : Nat
  completionTue : Nat
  completionWed : Nat
  completionThu : Nat
  completionFri : Nat
  completionSat : Nat
  completionSun : Nat
  lastUpdatedAt : Int
deriving DecidableEq

/-- Row of the core `tasks` table (`taskStorage.ts`). -/
structure TaskRow where
  id : String
  title : String
  completed : Bool
  createdAt : Int
  dueDate : Option Int
deriving DecidableEq

/-- The four logical tables of the local SQLite database. -/
structure DB where
  tasks : List TaskRow := []
  templates : List TemplateRow := []
  instances : List InstanceRow := []
  stats : List StatsRow := []
deriving DecidableEq

/-- Task kind dispatched on by the universal router.  An absent kind
behaves as the `default` branch, i.e. as `one_off`. -/
inductive TaskKind where
  | one_off
  | permanent
  | preset
deriving DecidableEq

/-- The untyped `metadata` bag carried on permanent `Task` records. -/
structure Metadata where
  permanentId : Option String := none
  templateTitle : Option String := none
  isTemplate : Option Bool := none
  autoRepeat : Option AutoRepeat := none
  instanceCount : Option Nat := none
deriving DecidableEq

/-- Core `Task` (`core/types/task.ts`).  `location` is modeled as the
location's `name` string (the handlers only ever read `.name` from the
`LocationData` object). -/
structure Task where
  id : String
  title : String
  completed : Bool
  createdAt : Int
  kind : TaskKind
  dueDate : Option Int := none
  location : Option String := none
  metadata : Option Metadata := none
deriving DecidableEq

/-! ## JS truthiness helpers -/

/-- `s || <alt>` for an optional string: `undefined` and `""` are falsy. -/
def strOr (s : Option String) (alt : Option String) : Option String :=
  match s with
  | some v => if v = "" then alt else some v
  | none => alt

/-- `n || <alt>` for an optional ms timestamp: `undefined` and `0` are
falsy. -/
def msOr (n : Option Int) (alt : Option Int) : Option Int :=
  match n with
  | some v => if v = 0 then alt else some v
  | none => alt

/-! ## Storage layer (`permanentTaskStorage.ts`, `taskStorage.ts`) -/

/-- `INSERT OR REPLACE INTO templates` (primary key `permanentId`). -/
def upsertTemplate (r : TemplateRow) (l : List TemplateRow) : List TemplateRow :=
  l.filter (fun t => !(t.permanentId == r.permanentId)) ++ [r]

/-- `INSERT OR REPLACE INTO template_instances` (primary key
`(instanceId, templateId)`). -/
def upsertInstance (r : InstanceRow) (l : List InstanceRow) : List InstanceRow :=
  l.filter (fun i => !(i.instanceId == r.instanceId && i.templateId == r.templateId)) ++ [r]

/-- `INSERT OR REPLACE INTO template_stats` (primary key `templateId`). -/
def upsertStats (r : StatsRow) (l : List StatsRow) : List StatsRow :=
  l.filter (fun s => !(s.templateId == r.templateId)) ++ [r]

/-- The zeroed stats row inserted by `savePermanentTemplate`'s
`INSERT OR IGNORE`. -/
def zeroStatsRow (templateId : String) (now : Int) : StatsRow :=
  { templateId := templateId, completionCount := 0, completionRate := 0,
    currentStreak := 0, maxStreak := 0,
    completionMon := 0, completionTue := 0, completionWed := 0,
    completionThu := 0, completionFri := 0, completionSat := 0,
    completionSun := 0, lastUpdatedAt := now }

/-- The `templates` row written by `savePermanentTemplate`:
`template.instanceCount || 0` and `template.location || null` follow JS
truthiness. -/
def templateRowOf (t : PermanentTask) : TemplateRow :=
  { permanentId := t.permanentId, templateTitle := t.templateTitle,
    isTemplate := t.isTemplate,
    instanceCount := (t.instanceCount.getD 0),
    autoRepeat := t.autoRepeat,
    location := strOr t.location none,
    createdAt := t.createdAt }

/-- `savePermanentTemplate`: upsert the template row, then
`INSERT OR IGNORE` a zeroed stats row. -/
def savePermanentTemplate (t : PermanentTask) (now : Int) (db : DB) : DB :=
  { db with
    templates := upsertTemplate (templateRowOf t) db.templates,
    stats :=
      if db.stats.any (fun s => s.templateId == t.permanentId) then db.stats
      else db.stats ++ [zeroStatsRow t.permanentId now] }

/-- Row → `PermanentTask` mapping shared by `getTemplateById` and
`getAllTemplates` (`row.location || undefined`, `completed: false`). -/
def templateRowToTask (row : TemplateRow) : PermanentTask :=
  { id := row.permanentId, permanentId := row.permanentId,
    templateTitle := row.templateTitle, isTemplate := row.isTemplate,
    instanceCount := some row.instanceCount,
    autoRepeat := row.autoRepeat,
    location := strOr row.location none,
    createdAt := row.createdAt, completed := some false }

/-- `getTemplateById`: `SELECT * FROM templates WHERE permanentId = ? AND
isTemplate = 1`, first row or `null`. -/
def getTemplateById (templateId : String) (db : DB) : Option PermanentTask :=
  (db.templates.find? (fun t => t.permanentId == templateId && t.isTemplate)).map
    templateRowToTask

/-- `getAllTemplates`: `SELECT * FROM templates WHERE isTemplate = 1`
(result order under `ORDER BY createdAt DESC` not modeled). -/
def getAllTemplates (db : DB) : List PermanentTask :=
  (db.templates.filter (fun t => t.isTemplate)).map templateRowToTask

/-- `deletePermanentTemplate`: delete the template's instance rows, the
template row, and its stats row. -/
def deletePermanentTemplate (templateId : String) (db : DB) : DB :=
  { db with
    instances := db.instances.filter (fun i => !(i.templateId == templateId)),
    templates := db.templates.filter (fun t => !(t.permanentId == templateId)),
    stats := db.stats.filter (fun s => !(s.templateId == templateId)) }

/-- `savePermanentInstance`: upsert the instance row, then unconditionally
`UPDATE templates SET instanceCount = instanceCount + 1 WHERE permanentId
= ?`. -/
def savePermanentInstance (i : PermanentTask) (db : DB) : DB :=
  let row : InstanceRow :=
    { instanceId := i.id, templateId := i.permanentId, createdAt := i.createdAt }
  { db with
    instances := upsertInstance row db.instances,
    templates := db.templates.map (fun t =>
      if t.permanentId == i.permanentId then
        { t with instanceCount := t.instanceCount + 1 }
      else t) }

/-- Instance row → `PermanentTask`, copying title/location/autoRepeat from
the owning template; `completed` is hard-coded `false` (completion status
is not stored in the schema). -/
def instanceRowToTask (row : InstanceRow) (template : PermanentTask) : PermanentTask :=
  { id := row.instanceId, permanentId := row.templateId,
    templateTitle := template.templateTitle, isTemplate := false,
    createdAt := row.createdAt,
    location := template.location,
    autoRepeat := template.autoRepeat,
    completed := some false }

/-- `getInstancesByTemplateId`: the template's instance rows, populated
from the template; `[]` when the template does not exist. -/
def getInstancesByTemplateId (templateId : String) (db : DB) : List PermanentTask :=
  let rows := db.instances.filter (fun i => i.templateId == templateId)
  match getTemplateById templateId db with
  | none => []
  | some template => rows.map (fun r => instanceRowToTask r template)

/-- `getInstanceById`: first instance row with the id, populated from its
template; `null` when the row or its template is missing. -/
def getInstanceById (instanceId : String) (db : DB) : Option PermanentTask :=
  match db.instances.find? (fun i => i.instanceId == instanceId) with
  | none => none
  | some row =>
    match getTemplateById row.templateId db with
    | none => none
    | some template => some (instanceRowToTask row template)

/-- `deletePermanentInstance`: delete the row, then decrement the owning
template's `instanceCount` where it is `> 0` (defensive clamp). -/
def deletePermanentInstance (instanceId templateId : String) (db : DB) : DB :=
  { db with
    instances := db.instances.filter (fun i =>
      !(i.instanceId == instanceId && i.templateId == templateId)),
    templates := db.templates.map (fun t =>
      if t.permanentId == templateId && t.instanceCount > 0 then
        { t with instanceCount := t.instanceCount - 1 }
      else t) }

/-- The `switch (day)` in `updateTemplateStats` incrementing one weekday
bucket; a day outside 0–6 hits no case (the source switch has no
default). -/
def bumpWeekday (s : StatsRow) (day : Int) : StatsRow :=
  if day = 0 then { s with completionSun := s.completionSun + 1 }
  else if day = 1 then { s with completionMon := s.completionMon + 1 }
  else if day = 2 then { s with completionTue := s.completionTue + 1 }
  else if day = 3 then { s with completionWed := s.completionWed + 1 }
  else if day = 4 then { s with completionThu := s.completionThu + 1 }
  else if day = 5 then { s with completionFri := s.completionFri + 1 }
  else if day = 6 then { s with completionSat := s.completionSat + 1 }
  else s

/-- The stats row `updateTemplateStats(templateId, completedAt)` computes
and persists: load (or lazily zero) the row, bump counters and the
`completedAt` weekday bucket, recompute the rate from the template's
`instanceCount`. -/
def updatedStatsRow (templateId : String) (completedAt now : Int) (db : DB) : StatsRow :=
  let base :=
    match db.stats.find? (fun s => s.templateId == templateId) with
    | none => zeroStatsRow templateId 0
    | some s => s
  let s1 := { base with
    completionCount := base.completionCount + 1,
    currentStreak := base.currentStreak + 1 }
  let s2 := { s1 with
    maxStreak := if s1.currentStreak > s1.maxStreak then s1.currentStreak else s1.maxStreak }
  let s3 := bumpWeekday s2 (jsGetDay completedAt)
  let totalInstances :=
    match db.templates.find? (fun t => t.permanentId == templateId) with
    | some t => t.instanceCount
    | none => 0
  { s3 with
    templateId := templateId,
    completionRate :=
      if totalInstances > 0 then (s3.completionCount : ℚ) / (totalInstances : ℚ) else 0,
    lastUpdatedAt := now }

/-- `updateTemplateStats(templateId, completedAt)`: compute the updated
stats row and `INSERT OR REPLACE` it. -/
def updateTemplateStats (templateId : String) (completedAt now : Int) (db : DB) : DB :=
  { db with stats := upsertStats (updatedStatsRow templateId completedAt now db) db.stats }

/-- `getTemplateStats`: first stats row for the template, or `null`. -/
def getTemplateStats (templateId : String) (db : DB) : Option StatsRow :=
  db.stats.find? (fun s => s.templateId == templateId)

/-- `saveTask` (`taskStorage.ts`): `INSERT OR REPLACE INTO tasks`. -/
def saveTask (t : Task) (db : DB) : DB :=
  let row : TaskRow :=
    { id := t.id, title := t.title, completed := t.completed,
      createdAt := t.createdAt, dueDate := t.dueDate }
  { db with tasks := db.tasks.filter (fun r => !(r.id == t.id)) ++ [row] }

/-- `deleteTask` (`taskStorage.ts`): `DELETE FROM tasks WHERE id = ?`. -/
def deleteTaskRow (taskId : String) (db : DB) : DB :=
  { db with tasks := db.tasks.filter (fun r => !(r.id == taskId)) }

/-! ## Factory (`permanentTaskFactory.ts`) -/

/-- `createTemplate(options)`: validate and trim the title, build a fresh
template with `instanceCount` 0.  Generated id and `Date.now()` are
parameters. -/
def createTemplate (templateTitle : String) (location : Option String)
    (autoRepeat : Option AutoRepeat) (freshId : String) (now : Int) :
    Except String PermanentTask :=
  if templateTitle.trim = "" then .error "Template title is required"
  else
    .ok { id := freshId, permanentId := freshId,
          templateTitle := templateTitle.trim, isTemplate := true,
          createdAt := now, instanceCount := some 0,
          location := strOr (location.map String.trim) none,
          autoRepeat := autoRepeat, completed := some false }

/-- `createInstance(options)`: reject non-templates, build an instance
linked to the template, inheriting location/autoRepeat. -/
def createInstance (template : PermanentTask) (dueDate : Option Int)
    (title : Option String) (location : Option String)
    (freshId : String) (now : Int) : Except String PermanentTask :=
  if !template.isTemplate then
    .error "Cannot create instance from a non-template task"
  else if template.permanentId = "" then
    .error "Template must have a permanentId"
  else
    .ok { id := freshId, permanentId := template.permanentId,
          title := strOr (title.map String.trim) none,
          templateTitle := template.templateTitle,
          isTemplate := false, createdAt := now,
          dueDate := msOr dueDate none,
          location := strOr (location.map String.trim) template.location,
          autoRepeat := template.autoRepeat,
          completed := some false }

/-- `validateTemplate(task)`: the four checked template invariants. -/
def validateTemplate (task : PermanentTask) : Except String Unit :=
  if task.permanentId = "" then
    .error "Template must have a permanentId"
  else if task.templateTitle.trim = "" then
    .error "Template must have a templateTitle"
  else if !task.isTemplate then
    .error "Task must be marked as a template (isTemplate: true)"
  else if task.createdAt ≤ 0 then
    .error "Template must have a valid createdAt timestamp"
  else .ok ()

/-- `validateInstance(task)`: the five checked instance invariants. -/
def validateInstance (task : PermanentTask) : Except String Unit :=
  if task.id = "" then
    .error "Instance must have an id"
  else if task.permanentId = "" then
    .error "Instance must have a permanentId linking to template"
  else if task.templateTitle.trim = "" then
    .error "Instance must have a templateTitle"
  else if task.isTemplate then
    .error "Task must be marked as an instance (isTemplate: false)"
  else if task.createdAt ≤ 0 then
    .error "Instance must have a valid createdAt timestamp"
  else .ok ()

/-- The next-due-date computation of `createNextRecurringInstance`:
daily adds one day; weekly adds seven days and, when a weekday anchor is
present, `(dayOfWeek - currentDay + 7) % 7` further days; monthly advances
one calendar month and optionally sets the day-of-month; any other
interval throws.  JS `%` is truncating, hence `Int.tmod`. -/
def nextRecurringDueDate (ar : AutoRepeat) (baseDate : Int) : Except String Int :=
  if ar.interval = "daily" then
    .ok (baseDate + 86400000)
  else if ar.interval = "weekly" then
    let nd := baseDate + 604800000
    match ar.dayOfWeek with
    | some dw =>
        let currentDay := jsGetDay nd
        let daysToAdd := Int.tmod (dw - currentDay + 7) 7
        .ok (nd + daysToAdd * 86400000)
    | none => .ok nd
  else if ar.interval = "monthly" then
    .ok (jsAddMonthSetDate baseDate ar.dayOfMonth)
  else
    .error ("Unknown interval: " ++ ar.interval)

/-- `createNextRecurringInstance(template, lastDueDate)`: require an
`autoRepeat` config, compute the next due date from
`lastDueDate || Date.now()`, and build the instance. -/
def createNextRecurringInstance (template : PermanentTask)
    (lastDueDate : Option Int) (freshId : String) (now : Int) :
    Except String PermanentTask :=
  match template.autoRepeat with
  | none => .error "Template must have autoRepeat configuration"
  | some ar =>
    let baseDate := (msOr lastDueDate (some now)).getD now
    match nextRecurringDueDate ar baseDate with
    | .error e => .error e
    | .ok nextDueDate => createInstance template (some nextDueDate) none none freshId now

/-! ## Business-logic layer (`permanentTaskActions.ts`) -/

/-- The task's metadata bag, `{}` when absent. -/
def mdOf (task : Task) : Metadata :=
  task.metadata.getD {}

/-- `metadata?.isTemplate` as a truthiness test. -/
def metaIsTemplate (task : Task) : Bool :=
  ((mdOf task).isTemplate).getD false

/-- The `PermanentTask` record `handlePermanentCompletion` builds from the
completed `Task` (with `completed: true`). -/
def mkCompletionPermanentTask (task : Task) : PermanentTask :=
  let md := mdOf task
  { id := task.id,
    permanentId := md.permanentId.getD "",
    templateTitle := (strOr md.templateTitle (some task.title)).getD task.title,
    isTemplate := false,
    createdAt := task.createdAt,
    completed := some true,
    dueDate := task.dueDate,
    location := task.location,
    autoRepeat := md.autoRepeat }

/-- The guarded auto-repeat spawn inside `handlePermanentCompletion`'s
`try`/`catch`: load the template, compute and save the next instance; any
failure is caught (logged as a warning) and leaves the state as it was
after the stats update. -/
def completionSpawn (pt : PermanentTask) (freshId : String) (now : Int) (db : DB) : DB :=
  match getTemplateById pt.permanentId db with
  | none => db
  | some template =>
    match createNextRecurringInstance template pt.dueDate freshId now with
    | .error _ => db
    | .ok next => savePermanentInstance next db

/-- `handlePermanentCompletion(task)`: reject templates, reject already
completed tasks; otherwise persist the completed instance, update stats,
then best-effort spawn the next recurring instance. -/
def handlePermanentCompletion (task : Task) (freshId : String) (now : Int)
    (db : DB) : Except String Task × DB :=
  if metaIsTemplate task then
    (.error "Cannot complete a template. Create an instance first.", db)
  else if task.completed then
    (.error "Task is already completed", db)
  else
    let pt := mkCompletionPermanentTask task
    let db1 := savePermanentInstance pt db
    let db2 := updateTemplateStats pt.permanentId now now db1
    let db3 := if pt.autoRepeat.isSome then completionSpawn pt freshId now db2 else db2
    (.ok { task with completed := true }, db3)

/-- `deletePermanentTask(task)`: cascade-delete a template, or single-row
delete an instance with count decrement. -/
def deletePermanentTask (task : Task) (db : DB) : DB :=
  let md := mdOf task
  if metaIsTemplate task then
    deletePermanentTemplate (md.permanentId.getD "") db
  else
    deletePermanentInstance task.id (md.permanentId.getD "") db

/-- The `updates: Partial<Task>` accepted by reassignment. -/
structure TaskUpdates where
  title : Option String := none
  dueDate : Option Int := none
  location : Option String := none
deriving DecidableEq

/-- `{ ...task, ...updates }`. -/
def applyUpdates (task : Task) (updates : TaskUpdates) : Task :=
  { task with
    title := updates.title.getD task.title,
    dueDate := updates.dueDate.orElse (fun _ => task.dueDate),
    location := updates.location.orElse (fun _ => task.location) }

/-- `reassignPermanentTask(task, updates)`: rebuild the `PermanentTask`,
apply the allowed updates, validate by kind and save through the matching
store function. -/
def reassignPermanentTask (task : Task) (updates : TaskUpdates) (now : Int)
    (db : DB) : Except String Task × DB :=
  let md := mdOf task
  let pt : PermanentTask :=
    { id := task.id, permanentId := md.permanentId.getD "",
      templateTitle := (strOr md.templateTitle (some task.title)).getD task.title,
      isTemplate := metaIsTemplate task,
      createdAt := task.createdAt, completed := some task.completed,
      dueDate := task.dueDate, location := task.location,
      title := if md.templateTitle = some task.title then none else some task.title,
      autoRepeat := md.autoRepeat, instanceCount := md.instanceCount }
  let upt : PermanentTask := { pt with
    title := strOr updates.title pt.title,
    dueDate := updates.dueDate.orElse (fun _ => pt.dueDate),
    location := updates.location.orElse (fun _ => pt.location) }
  if upt.isTemplate then
    match validateTemplate upt with
    | .error e => (.error e, db)
    | .ok _ => (.ok (applyUpdates task updates), savePermanentTemplate upt now db)
  else
    match validateInstance upt with
    | .error e => (.error e, db)
    | .ok _ => (.ok (applyUpdates task updates), savePermanentInstance upt db)

/-- `pushPermanentTaskForward(task, days)`: reject templates; move the due
date (defaulting to `Date.now()`) forward by `days * 86400000` ms and
re-save the instance. -/
def pushPermanentTaskForward (task : Task) (days : Int) (now : Int)
    (db : DB) : Except String Task × DB :=
  let md := mdOf task
  if metaIsTemplate task then
    (.error "Cannot push forward a template. Only instances have due dates.", db)
  else
    let currentDueDate := task.dueDate.getD now
    let newDueDate := currentDueDate + days * 86400000
    let pt : PermanentTask :=
      { id := task.id, permanentId := md.permanentId.getD "",
        templateTitle := (strOr md.templateTitle (some task.title)).getD task.title,
        isTemplate := false, createdAt := task.createdAt,
        completed := some task.completed, dueDate := some newDueDate,
        location := task.location,
        title := if md.templateTitle = some task.title then none else some task.title,
        autoRepeat := md.autoRepeat }
    (.ok { task with dueDate := some newDueDate }, savePermanentInstance pt db)

/-- The `additionalData` bag passed to `createTask` /
`createPermanentTask`. -/
structure AdditionalData where
  templateId : Option String := none
  dueDate : Option Int := none
  instanceTitle : Option String := none
  location : Option String := none
  templateTitle : Option String := none
  autoRepeat : Option AutoRepeat := none
  title : Option String := none
  completed : Option Bool := none
deriving DecidableEq

/-- `createPermanentTask(title, additionalData)`: with a (truthy)
`templateId`, create an instance from the template, save it to
`template_instances` and to `tasks`; otherwise create and save a new
template (no `tasks` write). -/
def createPermanentTask (title : String) (data : Option AdditionalData)
    (freshId : String) (now : Int) (db : DB) : Except String Task × DB :=
  let d := data.getD {}
  match strOr d.templateId none with
  | some templateId =>
    (match getTemplateById templateId db with
     | none => (.error ("Template with ID " ++ templateId ++ " not found"), db)
     | some template =>
       if !template.isTemplate then
         (.error ("Task " ++ templateId ++ " is not a template"), db)
       else
         match createInstance template d.dueDate
             (strOr d.instanceTitle (some title)) d.location freshId now with
         | .error e => (.error e, db)
         | .ok inst =>
           match validateInstance inst with
           | .error e => (.error e, db)
           | .ok _ =>
             let db1 := savePermanentInstance inst db
             let t : Task :=
               { id := inst.id,
                 title := (strOr inst.title (some inst.templateTitle)).getD inst.templateTitle,
                 completed := inst.completed.getD false,
                 createdAt := inst.createdAt,
                 kind := .permanent,
                 dueDate := msOr inst.dueDate none,
                 location := strOr inst.location none,
                 metadata := some { permanentId := some inst.permanentId,
                                    templateTitle := some inst.templateTitle,
                                    isTemplate := some inst.isTemplate,
                                    autoRepeat := inst.autoRepeat } }
             (.ok t, saveTask t db1))
  | none =>
    match createTemplate ((strOr d.templateTitle (some title)).getD title)
        d.location d.autoRepeat freshId now with
    | .error e => (.error e, db)
    | .ok template =>
      match validateTemplate template with
      | .error e => (.error e, db)
      | .ok _ =>
        let db1 := savePermanentTemplate template now db
        let t : Task :=
          { id := template.id, title := template.templateTitle,
            completed := false, createdAt := template.createdAt,
            kind := .permanent,
            location := strOr template.location none,
            metadata := some { permanentId := some template.permanentId,
                               templateTitle := some template.templateTitle,
                               isTemplate := some template.isTemplate,
                               instanceCount := template.instanceCount,
                               autoRepeat := template.autoRepeat } }
        (.ok t, db1)

/-! ## Universal router (`taskActions.ts`) and `TaskFactory` -/

/-- `TaskFactory.create(title)` with explicit generated id and
`Date.now()`; a fresh task has no kind, which the router's `switch`
`default` branches treat as `one_off`. -/
def TaskFactory.create (title : String) (freshId : String) (now : Int) : Task :=
  { id := freshId, title := title, completed := false, createdAt := now,
    kind := .one_off }

/-- `TaskFactory.complete(task)`: immutable update to `completed = true`. -/
def TaskFactory.complete (task : Task) : Task :=
  { task with completed := true }

/-- `createTask(title, kind, additionalData)`: the router's create.  The
source `switch (kind)` has cases only for `'permanent'` and
`'one_off'`/`default`, so `preset` falls into the default one-off path. -/
def createTask (title : String) (kind : TaskKind)
    (additionalData : Option AdditionalData) (freshId : String) (now : Int)
    (db : DB) : Except String Task × DB :=
  match kind with
  | .permanent => createPermanentTask title additionalData freshId now db
  | _ =>
    let task := TaskFactory.create title freshId now
    let d := additionalData.getD {}
    let taskWithData := { task with
      title := d.title.getD task.title,
      completed := d.completed.getD task.completed,
      dueDate := d.dueDate.orElse (fun _ => task.dueDate),
      location := d.location.orElse (fun _ => task.location) }
    (.ok taskWithData, saveTask taskWithData db)

/-- `completeTask(task)`: dispatch on kind; `preset` throws. -/
def completeTask (task : Task) (freshId : String) (now : Int) (db : DB) :
    Except String Task × DB :=
  match task.kind with
  | .permanent => handlePermanentCompletion task freshId now db
  | .preset => (.error "Preset task completion not yet implemented", db)
  | .one_off =>
    let completed := TaskFactory.complete task
    (.ok completed, saveTask completed db)

/-- `deleteTask(task)`: dispatch on kind; `preset` throws. -/
def deleteTask (task : Task) (db : DB) : Except String Unit × DB :=
  match task.kind with
  | .permanent => (.ok (), deletePermanentTask task db)
  | .preset => (.error "Preset task deletion not yet implemented", db)
  | .one_off => (.ok (), deleteTaskRow task.id db)

/-- `reassignTask(task, updates)`: dispatch on kind; `preset` throws. -/
def reassignTask (task : Task) (updates : TaskUpdates) (now : Int) (db : DB) :
    Except String Task × DB :=
  match task.kind with
  | .permanent => reassignPermanentTask task updates now db
  | .preset => (.error "Preset task reassignment not yet implemented", db)
  | .one_off =>
    let updated := applyUpdates task updates
    (.ok updated, saveTask updated db)

/-- `pushTaskForward(task, days)`: dispatch on kind; `preset` throws.  The
one-off path uses `setDate(getDate() + days)`, which in the UTC model
moves exactly `days` civil days preserving time-of-day. -/
def pushTaskForward (task : Task) (days : Int) (now : Int) (db : DB) :
    Except String Task × DB :=
  match task.kind with
  | .permanent => pushPermanentTaskForward task days now db
  | .preset => (.error "Preset task push forward not yet implemented", db)
  | .one_off =>
    let due0 := task.dueDate.getD now
    let tod := Int.emod due0 86400000
    let dn := Int.fdiv due0 86400000
    let c := civilFromDays dn
    let newDue := (daysFromCivil c.1 c.2.1 1 + (c.2.2 - 1 + days)) * 86400000 + tod
    let updated := { task with dueDate := some newDue }
    (.ok updated, saveTask updated db)

/-! ## Observables used by the claims -/

/-- The owning template's stored `instanceCount`, read off the `templates`
table (`none` when the template row is missing). -/
def templateCount (pid : String) (db : DB) : Option Nat :=
  (db.templates.find? (fun t => t.permanentId == pid)).map (fun t => t.instanceCount)

/-- Sum of the seven weekday completion buckets of a stats row. -/
def bucketSum (s : StatsRow) : Nat :=
  s.completionMon + s.completionTue + s.completionWed + s.completionThu +
    s.completionFri + s.completionSat + s.completionSun

/-- The stats row `updateTemplateStats` starts from: the stored row, or a
zeroed one when none exists. -/
def statsBase (tid : String) (db : DB) : StatsRow :=
  (getTemplateStats tid db).getD (zeroStatsRow tid 0)

/-! ## List lemmas for the keyed tables -/

theorem find?_filter_not {α} (p q : α → Bool) (h : ∀ a, q a = true → p a = true)
    (l : List α) : (l.filter (fun a => !(p a))).find? q = none := by
  induction l with
  | nil => rfl
  | cons a t ih =>
    by_cases hp : p a = true
    · simpa [List.filter_cons, hp] using ih
    · have hq : q a = false := by
        cases hqa : q a
        · rfl
        · exact absurd (h a hqa) hp
      simpa [List.filter_cons, hp, List.find?_cons, hq] using ih

theorem find?_upsert_self {α} (p : α → Bool) (x : α) (hx : p x = true)
    (l : List α) : ((l.filter fun a => !(p a)) ++ [x]).find? p = some x := by
  rw [List.find?_append, find?_filter_not p p (fun _ h => h)]
  simp [List.find?_cons, hx]

theorem upsert_self_idem {α} (p : α → Bool) (x : α) (hx : p x = true)
    (l : List α) :
    (((l.filter fun a => !(p a)) ++ [x]).filter fun a => !(p a)) ++ [x]
      = (l.filter fun a => !(p a)) ++ [x] := by
  rw [List.filter_append, List.filter_filter]
  simp [hx]

theorem find?_incr_templates (l : List TemplateRow) (pid : String) :
    (l.map (fun t => if t.permanentId == pid then
        { t with instanceCount := t.instanceCount + 1 } else t)).find?
      (fun t => t.permanentId == pid)
    = (l.find? (fun t => t.permanentId == pid)).map
        (fun t => { t with instanceCount := t.instanceCount + 1 }) := by
  rw [List.find?_map]
  have hpg : ((fun t : TemplateRow => t.permanentId == pid) ∘
      (fun t => if t.permanentId == pid then
        { t with instanceCount := t.instanceCount + 1 } else t))
      = (fun t : TemplateRow => t.permanentId == pid) := by
    funext a
    by_cases hp : a.permanentId = pid <;> simp [hp]
  rw [hpg]
  cases hf : l.find? (fun t => t.permanentId == pid) with
  | none => rfl
  | some a =>
    have hp : a.permanentId = pid := by simpa using List.find?_some hf
    simp [hp]

/-! ## Facts about the stats update -/

theorem jsGetDay_nonneg (t : Int) : 0 ≤ jsGetDay t :=
  Int.emod_nonneg _ (by decide)

theorem jsGetDay_lt (t : Int) : jsGetDay t < 7 :=
  Int.emod_lt_of_pos _ (by decide)

theorem jsGetDay_cases (t : Int) :
    jsGetDay t = 0 ∨ jsGetDay t = 1 ∨ jsGetDay t = 2 ∨ jsGetDay t = 3 ∨
    jsGetDay t = 4 ∨ jsGetDay t = 5 ∨ jsGetDay t = 6 := by
  have h0 := jsGetDay_nonneg t
  have h7 := jsGetDay_lt t
  omega

/-- What one `updateTemplateStats` call does to the observable stats
record: the row exists afterwards, its streak grows by one, the max streak
follows, and the weekday buckets gain exactly one completion. -/
theorem update_stats_spec (tid : String) (d n : Int) (db : DB) :
    ∃ s', getTemplateStats tid (updateTemplateStats tid d n db) = some s' ∧
      s'.currentStreak = (statsBase tid db).currentStreak + 1 ∧
      s'.maxStreak = (if (statsBase tid db).currentStreak + 1 > (statsBase tid db).maxStreak
        then (statsBase tid db).currentStreak + 1 else (statsBase tid db).maxStreak) ∧
      s'.completionCount = (statsBase tid db).completionCount + 1 ∧
      bucketSum s' = bucketSum (statsBase tid db) + 1 := by
  refine ⟨updatedStatsRow tid d n db, ?_, ?_, ?_, ?_, ?_⟩
  · show (upsertStats (updatedStatsRow tid d n db) db.stats).find? _ = _
    exact find?_upsert_self _ _ (by simp [updatedStatsRow]) _
  all_goals
    rcases jsGetDay_cases d with h | h | h | h | h | h | h <;>
      cases hf : db.stats.find? (fun s => s.templateId == tid) <;>
        simp [updatedStatsRow, statsBase, getTemplateStats, hf, h,
          bumpWeekday, bucketSum, zeroStatsRow] <;> omega

/-! ## Upsert idempotence lemmas -/

theorem upsertTemplate_idem (r : TemplateRow) (l : List TemplateRow) :
    upsertTemplate r (upsertTemplate r l) = upsertTemplate r l := by
  unfold upsertTemplate
  exact upsert_self_idem (fun a => a.permanentId == r.permanentId) r (by simp) l

theorem upsertInstance_idem (r : InstanceRow) (l : List InstanceRow) :
    upsertInstance r (upsertInstance r l) = upsertInstance r l := by
  unfold upsertInstance
  exact upsert_self_idem
    (fun a => a.instanceId == r.instanceId && a.templateId == r.templateId) r
    (by simp) l

theorem stats_ignore_after (tid : String) (now : Int) (l : List StatsRow) :
    ((if l.any (fun s => s.templateId == tid) then l
      else l ++ [zeroStatsRow tid now]).any (fun s => s.templateId == tid)) = true := by
  by_cases h : l.any (fun s => s.templateId == tid) <;>
    simp [h, zeroStatsRow]

/-! ## Concrete scenario shared by several claims -/

/-- A plain template ("Water plants", no recurrence). -/
def waterTemplate : PermanentTask :=
  { id := "t1", permanentId := "t1", templateTitle := "Water plants",
    isTemplate := true, createdAt := 5, instanceCount := some 0,
    completed := some false }

/-- One instance of `waterTemplate`. -/
def waterInstance : PermanentTask :=
  { id := "i1", permanentId := "t1", templateTitle := "Water plants",
    isTemplate := false, createdAt := 6, completed := some false }

/-- Store state after saving `waterTemplate` and then `waterInstance`:
one template row with `instanceCount = 1` and one instance row. -/
def waterDB : DB :=
  savePermanentInstance waterInstance (savePermanentTemplate waterTemplate 5 {})

/-- `waterInstance` as the router-level `Task` record. -/
def waterInstanceTask : Task :=
  { id := "i1", title := "Water plants", completed := false, createdAt := 6,
    kind := .permanent,
    metadata := some { permanentId := some "t1",
                       templateTitle := some "Water plants",
                       isTemplate := some false } }

/-- `waterTemplate` as the router-level `Task` record. -/
def waterTemplateTask : Task :=
  { id := "t1", title := "Water plants", completed := false, createdAt := 5,
    kind := .permanent,
    metadata := some { permanentId := some "t1",
                       templateTitle := some "Water plants",
                       isTemplate := some true, instanceCount := some 0 } }

/-- A template with weekly recurrence anchored on Monday
(`dayOfWeek = 1`), as in the spec's weekly example. -/
def weeklyMondayTemplate : PermanentTask :=
  { id := "w1", permanentId := "w1", templateTitle := "Weekly Report",
    isTemplate := true, createdAt := 5,
    autoRepeat := some { interval := "weekly", dayOfWeek := some 1 },
    completed := some false }

/-! ## C1 — weekly recurrence with Monday anchor -/

/-- C1, counterexample: with a weekly/Monday(1) recurrence and reference
date Wednesday 2024-01-03 (1704240000000 ms UTC),
`createNextRecurringInstance` computes the due date 1705276800000 =
Monday 2024-01-15, not Monday 2024-01-08 (1704672000000) as the claim
states: the naive +7 lands on Wednesday 2024-01-10 and is advanced only
forward, so the Monday before it is unreachable. -/
theorem weekly_anchor_jan8_counterexample :
    (createNextRecurringInstance weeklyMondayTemplate (some 1704240000000) "i2" 99).map
        (fun i => i.dueDate) = .ok (some 1705276800000)
    ∧ (1705276800000 : Int) ≠ 1704672000000 := by
  exact ⟨rfl, by decide⟩

/-- C1, amended: with weekly recurrence, weekday anchor Monday (1) and
reference date Wednesday 2024-01-03, the next due date computed by
`createNextRecurringInstance` is Monday 2024-01-15: the naive reference
+ 7 days result (Wednesday 2024-01-10, still weekday 3) is advanced only
forward by the minimal 5 days (< 7) to land exactly on the anchor
weekday 1. -/
theorem weekly_anchor_next_due_jan15 :
    (createNextRecurringInstance weeklyMondayTemplate (some 1704240000000) "i2" 99).map
        (fun i => i.dueDate) = .ok (some 1705276800000)
    ∧ jsGetDay 1704240000000 = 3
    ∧ jsGetDay (1704240000000 + 604800000) = 3
    ∧ (1705276800000 : Int) = (1704240000000 + 604800000) + 5 * 86400000
    ∧ jsGetDay 1705276800000 = 1 := by
  refine ⟨rfl, by decide, by decide, by decide, by decide⟩

/-! ## C2 — `instanceCount` = number of referencing instance rows -/

/-- C2, code-bug evaluation: starting from `waterDB` (template `t1` with
`instanceCount = 1` and exactly one instance row), completing the
instance through `completeTask` succeeds but leaves `instanceCount = 2`
while the instance rows referencing `t1` still number 1:
`savePermanentInstance` increments the counter even when it merely
replaces the existing row, so the completion path breaks the documented
count-equals-rows invariant. -/
theorem instanceCount_diverges_on_completion :
    (completeTask waterInstanceTask "f1" 1704240000000 waterDB).1 =
        .ok { waterInstanceTask with completed := true }
    ∧ ((completeTask waterInstanceTask "f1" 1704240000000 waterDB).2.instances.filter
        (fun i => i.templateId == "t1")).length = 1
    ∧ templateCount "t1" (completeTask waterInstanceTask "f1" 1704240000000 waterDB).2
        = some 2 := by
  refine ⟨rfl, rfl, rfl⟩

/-! ## C3 — idempotence of the save operations -/

/-- C3, counterexample: `waterDB` already contains `waterInstance`; saving
the identical instance record a second time leaves the instance rows
unchanged but raises the owning template's `instanceCount` from 1 to 2,
so the repeated instance save is not a no-op as the claim states. -/
theorem instance_save_not_idempotent_counterexample :
    (savePermanentInstance waterInstance waterDB).instances = waterDB.instances
    ∧ templateCount "t1" waterDB = some 1
    ∧ templateCount "t1" (savePermanentInstance waterInstance waterDB) = some 2 := by
  refine ⟨rfl, rfl, rfl⟩

/-- C3, amended: saving an identical template twice is a no-op in effect —
the second `savePermanentTemplate` leaves the whole database (hence
`getAllTemplates`, its length and all field values) unchanged.  Saving an
identical instance twice leaves the `template_instances` table unchanged,
but each `savePermanentInstance` call additionally increments the owning
template's stored `instanceCount` by one, so the repeated instance save
is not a no-op in effect. -/
theorem save_idempotence_amended (t i : PermanentTask) (db : DB) (now now' : Int) :
    savePermanentTemplate t now' (savePermanentTemplate t now db)
        = savePermanentTemplate t now db
    ∧ getAllTemplates (savePermanentTemplate t now' (savePermanentTemplate t now db))
        = getAllTemplates (savePermanentTemplate t now db)
    ∧ (savePermanentInstance i (savePermanentInstance i db)).instances
        = (savePermanentInstance i db).instances
    ∧ templateCount i.permanentId (savePermanentInstance i (savePermanentInstance i db))
        = (templateCount i.permanentId (savePermanentInstance i db)).map (fun c => c + 1) := by
  have h1 : savePermanentTemplate t now' (savePermanentTemplate t now db)
      = savePermanentTemplate t now db := by
    have hst := stats_ignore_after t.permanentId now db.stats
    simp only [savePermanentTemplate, hst, if_true, upsertTemplate_idem]
  refine ⟨h1, congrArg getAllTemplates h1, ?_, ?_⟩
  · simp only [savePermanentInstance, upsertInstance_idem]
  · simp only [templateCount, savePermanentInstance, find?_incr_templates]
    cases db.templates.find? (fun tr => tr.permanentId == i.permanentId) <;> rfl

/-! ## C4 — deleting a template cascades -/

/-- C4: deleting a template task through the router's `deleteTask` runs
the cascade `deletePermanentTemplate` (instances, template row, stats in
one synchronous unit), after which no instance references the template
(`getInstancesByTemplateId` is empty) and no stats record remains
(`getTemplateStats` is `none`). -/
theorem delete_template_cascades (db : DB) (task : Task) (m : Metadata) (pid : String)
    (hk : task.kind = TaskKind.permanent)
    (hm : task.metadata = some m)
    (ht : m.isTemplate = some true)
    (hp : m.permanentId = some pid) :
    deleteTask task db = (.ok (), deletePermanentTemplate pid db)
    ∧ getInstancesByTemplateId pid (deleteTask task db).2 = []
    ∧ getTemplateStats pid (deleteTask task db).2 = none := by
  have h1 : deleteTask task db = (.ok (), deletePermanentTemplate pid db) := by
    simp [deleteTask, hk, deletePermanentTask, metaIsTemplate, mdOf, hm, ht, hp]
  have h2 : getTemplateStats pid (deletePermanentTemplate pid db) = none := by
    unfold getTemplateStats deletePermanentTemplate
    exact find?_filter_not _ _ (fun a h => h) _
  have h3 : getInstancesByTemplateId pid (deletePermanentTemplate pid db) = [] := by
    unfold getInstancesByTemplateId getTemplateById deletePermanentTemplate
    rw [find?_filter_not (fun t : TemplateRow => t.permanentId == pid)
      (fun t => t.permanentId == pid && t.isTemplate)
      (fun a h => by simp only [Bool.and_eq_true] at h; exact h.1) db.templates]
    rfl
  exact ⟨h1, by rw [h1]; exact h3, by rw [h1]; exact h2⟩

/-- C4 witness: the cascade on the concrete `waterDB`. -/
theorem delete_template_cascades_witness :
    deleteTask waterTemplateTask waterDB = (.ok (), deletePermanentTemplate "t1" waterDB)
    ∧ getInstancesByTemplateId "t1" (deleteTask waterTemplateTask waterDB).2 = []
    ∧ getTemplateStats "t1" (deleteTask waterTemplateTask waterDB).2 = none :=
  delete_template_cascades waterDB waterTemplateTask
    { permanentId := some "t1", templateTitle := some "Water plants",
      isTemplate := some true, instanceCount := some 0 } "t1" rfl rfl rfl rfl

/-! ## C5 — completing twice -/

/-- C5: for a permanent instance task, the first `completeTask` succeeds
and returns the task marked completed; calling `completeTask` again on
that result is rejected with "Task is already completed" and leaves the
stored state exactly as it was after the first call. -/
theorem complete_twice_second_rejected (task : Task) (freshId freshId' : String)
    (now now' : Int) (db : DB)
    (hk : task.kind = TaskKind.permanent)
    (ht : metaIsTemplate task = false)
    (hc : task.completed = false) :
    (completeTask task freshId now db).1 = .ok { task with completed := true }
    ∧ completeTask { task with completed := true } freshId' now'
        (completeTask task freshId now db).2
      = (.error "Task is already completed", (completeTask task freshId now db).2) := by
  constructor
  · simp [completeTask, hk, handlePermanentCompletion, ht, hc]
  · have ht' := ht
    simp only [metaIsTemplate, mdOf] at ht'
    simp [completeTask, hk, handlePermanentCompletion, metaIsTemplate, mdOf, ht']

/-- C5 witness: both completions on the concrete `waterDB`. -/
theorem complete_twice_second_rejected_witness :
    (completeTask waterInstanceTask "f1" 7 waterDB).1
        = .ok { waterInstanceTask with completed := true }
    ∧ completeTask { waterInstanceTask with completed := true } "f2" 8
        (completeTask waterInstanceTask "f1" 7 waterDB).2
      = (.error "Task is already completed", (completeTask waterInstanceTask "f1" 7 waterDB).2) :=
  complete_twice_second_rejected waterInstanceTask "f1" "f2" 7 8 waterDB rfl rfl rfl

/-! ## C7 — completing a template is always rejected -/

/-- C7: for every task whose metadata marks it as a template, the
router's `completeTask` rejects with the template error regardless of the
task's other fields, and the returned state is the untouched input state:
no store write happens before the rejection. -/
theorem complete_template_always_rejected (task : Task) (freshId : String)
    (now : Int) (db : DB)
    (hk : task.kind = TaskKind.permanent)
    (ht : metaIsTemplate task = true) :
    completeTask task freshId now db
      = (.error "Cannot complete a template. Create an instance first.", db) := by
  simp [completeTask, hk, handlePermanentCompletion, ht]

/-- C7 witness: rejecting the concrete template task on `waterDB`. -/
theorem complete_template_always_rejected_witness :
    completeTask waterTemplateTask "f1" 7 waterDB
      = (.error "Cannot complete a template. Create an instance first.", waterDB) :=
  complete_template_always_rejected waterTemplateTask "f1" 7 waterDB rfl rfl

/-! ## C6 — completion write order and best-effort spawn -/

/-- C6: within one `handlePermanentCompletion` the writes happen as the
composition (1) `savePermanentInstance` of the completed instance, then
(2) `updateTemplateStats`, then (3) the guarded spawn `completionSpawn`;
and whenever step (3)'s `createNextRecurringInstance` fails, the error is
caught — the state stays exactly the one produced by steps (1)–(2) — and
the handler still returns the completed task. -/
theorem completion_write_order_and_spawn_failure
    (task : Task) (freshId : String) (now : Int) (db : DB)
    (template : PermanentTask) (e : String)
    (ht : metaIsTemplate task = false)
    (hc : task.completed = false)
    (hs : (mkCompletionPermanentTask task).autoRepeat.isSome = true)
    (htm : getTemplateById (mkCompletionPermanentTask task).permanentId
        (updateTemplateStats (mkCompletionPermanentTask task).permanentId now now
          (savePermanentInstance (mkCompletionPermanentTask task) db)) = some template)
    (he : createNextRecurringInstance template (mkCompletionPermanentTask task).dueDate
        freshId now = .error e) :
    handlePermanentCompletion task freshId now db
      = (.ok { task with completed := true },
         completionSpawn (mkCompletionPermanentTask task) freshId now
           (updateTemplateStats (mkCompletionPermanentTask task).permanentId now now
             (savePermanentInstance (mkCompletionPermanentTask task) db)))
    ∧ completionSpawn (mkCompletionPermanentTask task) freshId now
        (updateTemplateStats (mkCompletionPermanentTask task).permanentId now now
          (savePermanentInstance (mkCompletionPermanentTask task) db))
      = updateTemplateStats (mkCompletionPermanentTask task).permanentId now now
          (savePermanentInstance (mkCompletionPermanentTask task) db) := by
  constructor
  · simp [handlePermanentCompletion, ht, hc, hs]
  · simp only [completionSpawn, htm, he]

/-- A template whose recurrence interval "yearly" is unknown to the
scheduler, so spawning the next instance after a completion fails. -/
def yearlyTemplate : PermanentTask :=
  { id := "y1", permanentId := "y1", templateTitle := "Annual review",
    isTemplate := true, createdAt := 5,
    autoRepeat := some { interval := "yearly" }, completed := some false }

/-- Store state with only `yearlyTemplate` saved. -/
def yearlyDB : DB := savePermanentTemplate yearlyTemplate 5 {}

/-- A due instance of `yearlyTemplate` as a router-level `Task`. -/
def yearlyInstanceTask : Task :=
  { id := "yi1", title := "Annual review", completed := false, createdAt := 6,
    kind := .permanent, dueDate := some 1704240000000,
    metadata := some { permanentId := some "y1",
                       templateTitle := some "Annual review",
                       isTemplate := some false,
                       autoRepeat := some { interval := "yearly" } } }

/-- What `getTemplateById "y1"` returns after the completion's first two
writes: the stored row mapped back, with `instanceCount` already bumped
to 1 by the instance save. -/
def yearlyStoredTemplate : PermanentTask :=
  { id := "y1", permanentId := "y1", templateTitle := "Annual review",
    isTemplate := true, createdAt := 5, instanceCount := some 1,
    autoRepeat := some { interval := "yearly" }, completed := some false }

/-- C6 witness: completing the yearly instance, whose spawn step fails
with "Unknown interval: yearly". -/
theorem completion_write_order_and_spawn_failure_witness :
    handlePermanentCompletion yearlyInstanceTask "f9" 7 yearlyDB
      = (.ok { yearlyInstanceTask with completed := true },
         completionSpawn (mkCompletionPermanentTask yearlyInstanceTask) "f9" 7
           (updateTemplateStats (mkCompletionPermanentTask yearlyInstanceTask).permanentId 7 7
             (savePermanentInstance (mkCompletionPermanentTask yearlyInstanceTask) yearlyDB)))
    ∧ completionSpawn (mkCompletionPermanentTask yearlyInstanceTask) "f9" 7
        (updateTemplateStats (mkCompletionPermanentTask yearlyInstanceTask).permanentId 7 7
          (savePermanentInstance (mkCompletionPermanentTask yearlyInstanceTask) yearlyDB))
      = updateTemplateStats (mkCompletionPermanentTask yearlyInstanceTask).permanentId 7 7
          (savePermanentInstance (mkCompletionPermanentTask yearlyInstanceTask) yearlyDB) :=
  completion_write_order_and_spawn_failure yearlyInstanceTask "f9" 7 yearlyDB
    yearlyStoredTemplate "Unknown interval: yearly" rfl rfl rfl rfl rfl

/-! ## C8 — three completions from no stats record -/

/-- C8: three consecutive `updateTemplateStats` (recordCompletion) calls
for the same template on distinct dates, starting from no stats record
(lazily initialized to zeroes), yield `currentStreak = 3`,
`maxStreak = 3`, and weekday buckets summing to 3. -/
theorem three_completions_streak (db : DB) (tid : String) (d1 d2 d3 n1 n2 n3 : Int)
    (h0 : getTemplateStats tid db = none)
    (hd12 : d1 ≠ d2) (hd13 : d1 ≠ d3) (hd23 : d2 ≠ d3) :
    (getTemplateStats tid
        (updateTemplateStats tid d3 n3
          (updateTemplateStats tid d2 n2
            (updateTemplateStats tid d1 n1 db)))).map
      (fun s => (s.currentStreak, s.maxStreak, bucketSum s)) = some (3, 3, 3) := by
  obtain ⟨s1, hs1, hc1, hm1, hcc1, hb1⟩ := update_stats_spec tid d1 n1 db
  obtain ⟨s2, hs2, hc2, hm2, hcc2, hb2⟩ :=
    update_stats_spec tid d2 n2 (updateTemplateStats tid d1 n1 db)
  obtain ⟨s3, hs3, hc3, hm3, hcc3, hb3⟩ :=
    update_stats_spec tid d3 n3
      (updateTemplateStats tid d2 n2 (updateTemplateStats tid d1 n1 db))
  have hbase0 : statsBase tid db = zeroStatsRow tid 0 := by
    simp [statsBase, h0]
  have hbase1 : statsBase tid (updateTemplateStats tid d1 n1 db) = s1 := by
    simp [statsBase, hs1]
  have hbase2 : statsBase tid
      (updateTemplateStats tid d2 n2 (updateTemplateStats tid d1 n1 db)) = s2 := by
    simp [statsBase, hs2]
  have e1 : s1.currentStreak = 1 := by rw [hc1, hbase0]; rfl
  have e1m : s1.maxStreak = 1 := by rw [hm1, hbase0]; rfl
  have e1b : bucketSum s1 = 1 := by rw [hb1, hbase0]; rfl
  have e2 : s2.currentStreak = 2 := by rw [hc2, hbase1, e1]
  have e2m : s2.maxStreak = 2 := by rw [hm2, hbase1, e1, e1m]; decide
  have e2b : bucketSum s2 = 2 := by rw [hb2, hbase1, e1b]
  have e3 : s3.currentStreak = 3 := by rw [hc3, hbase2, e2]
  have e3m : s3.maxStreak = 3 := by rw [hm3, hbase2, e2, e2m]; decide
  have e3b : bucketSum s3 = 3 := by rw [hb3, hbase2, e2b]
  rw [hs3]
  simp [e3, e3m, e3b]

/-- C8 witness: three completions of template `t1` on three consecutive
days, starting from the empty store. -/
theorem three_completions_streak_witness :
    (getTemplateStats "t1"
        (updateTemplateStats "t1" 172800000 30
          (updateTemplateStats "t1" 86400000 20
            (updateTemplateStats "t1" 0 10 ({} : DB))))).map
      (fun s => (s.currentStreak, s.maxStreak, bucketSum s)) = some (3, 3, 3) :=
  three_completions_streak {} "t1" 0 86400000 172800000 10 20 30 rfl
    (by decide) (by decide) (by decide)

/-! ## C9 — the `preset` kind -/

/-- C9, counterexample: `createTask` with kind `preset` does not signal
"not yet implemented": its `switch` has no `preset` case, so the call
falls into the default one-off path, succeeds, and persists a row to the
`tasks` table. -/
theorem preset_create_counterexample :
    (createTask "Sketch" TaskKind.preset none "k1" 10 {}).1
        = .ok (TaskFactory.create "Sketch" "k1" 10)
    ∧ (createTask "Sketch" TaskKind.preset none "k1" 10 {}).2.tasks.length = 1 := by
  exact ⟨rfl, rfl⟩

/-- C9, amended: for the preset task kind the router's complete, delete,
reassign and push-forward operations signal "not yet implemented" (and
leave the state untouched), but the create operation does not: it behaves
exactly like the default one-off path and persists a task. -/
theorem preset_ops_amended (task : Task) (updates : TaskUpdates)
    (days now : Int) (freshId : String) (db : DB) (title : String)
    (data : Option AdditionalData)
    (hk : task.kind = TaskKind.preset) :
    completeTask task freshId now db
        = (.error "Preset task completion not yet implemented", db)
    ∧ deleteTask task db = (.error "Preset task deletion not yet implemented", db)
    ∧ reassignTask task updates now db
        = (.error "Preset task reassignment not yet implemented", db)
    ∧ pushTaskForward task days now db
        = (.error "Preset task push forward not yet implemented", db)
    ∧ createTask title TaskKind.preset data freshId now db
        = createTask title TaskKind.one_off data freshId now db := by
  refine ⟨?_, ?_, ?_, ?_, rfl⟩ <;>
    simp [completeTask, deleteTask, reassignTask, pushTaskForward, hk]

/-- A concrete preset-kind task. -/
def presetTask : Task :=
  { id := "p1", title := "Preset", completed := false, createdAt := 5,
    kind := .preset }

/-- C9 witness: the four rejections and the create fall-through at
concrete inputs. -/
theorem preset_ops_amended_witness :
    completeTask presetTask "f1" 7 waterDB
        = (.error "Preset task completion not yet implemented", waterDB)
    ∧ deleteTask presetTask waterDB
        = (.error "Preset task deletion not yet implemented", waterDB)
    ∧ reassignTask presetTask {} 7 waterDB
        = (.error "Preset task reassignment not yet implemented", waterDB)
    ∧ pushTaskForward presetTask 1 7 waterDB
        = (.error "Preset task push forward not yet implemented", waterDB)
    ∧ createTask "Sketch" TaskKind.preset none "f1" 7 waterDB
        = createTask "Sketch" TaskKind.one_off none "f1" 7 waterDB :=
  preset_ops_amended presetTask {} 1 7 "f1" waterDB "Sketch" none rfl

/-! ## C10 — instance reads never report completion -/

/-- C10: every instance read back from the store — through
`getInstanceById` or `getInstancesByTemplateId` — carries
`completed = some false`, whatever the store state (in particular
immediately after the instance was completed): the instance schema does
not persist completion, both readers hard-code `completed: false`. -/
theorem instance_reads_never_completed (db : DB) (iid tid : String) :
    (∀ p, getInstanceById iid db = some p → p.completed = some false)
    ∧ (∀ p, p ∈ getInstancesByTemplateId tid db → p.completed = some false) := by
  constructor
  · intro p hp
    unfold getInstanceById at hp
    split at hp
    · exact absurd hp (by simp)
    · split at hp
      · exact absurd hp (by simp)
      · simp only [Option.some.injEq] at hp
        rw [← hp]
        rfl
  · intro p hp
    unfold getInstancesByTemplateId at hp
    split at hp
    · exact absurd hp (by simp)
    · simp only [List.mem_map] at hp
      obtain ⟨r, _, hr⟩ := hp
      rw [← hr]
      rfl

/-- The `PermanentTask` that `getInstanceById "i1"` returns after the
completion of the water-plants instance. -/
def waterInstanceRead : PermanentTask :=
  { id := "i1", permanentId := "t1", templateTitle := "Water plants",
    isTemplate := false, createdAt := 6, completed := some false }

/-- C10 witness: reading the instance back right after completing it
still reports `completed = some false`. -/
theorem instance_reads_never_completed_witness :
    getInstanceById "i1" (completeTask waterInstanceTask "f1" 7 waterDB).2
        = some waterInstanceRead
    ∧ waterInstanceRead.completed = some false :=
  ⟨rfl,
   (instance_reads_never_completed (completeTask waterInstanceTask "f1" 7 waterDB).2
     "i1" "t1").1 waterInstanceRead rfl⟩

end Todo
